import Mathlib

/-!
Verification of the SMART-2 CVD risk calculator (`HOPE_5_CVD_RC.py`).

The core of the program is `calculate_smart2_risk` (lines 20–48): it converts
the session-state inputs to numbers, assembles a linear predictor from fixed
coefficients, applies a double-exponential transform using the literal
`2.71828` in place of Euler's number, rounds to one decimal place, clamps to
[1, 99], and returns `None` when any numeric conversion fails.  `main`
(lines 101–106) classifies the returned percentage into three tiers.

The embedding below models the numeric state with real numbers.  Python's
`round(x, 1)` is modelled as round-half-up to one decimal (the specification
allows either tie rule and no statement here sits on a tie boundary).
`float()` conversion of a field is modelled as an `Option ℝ`: `none` stands
for a missing or non-convertible field, and the blanket `try/except` of the
source maps exactly those failures to `None`.
-/

namespace HOPE5

/-- Sex of the patient; the form offers exactly "Male" and "Female". -/
inductive Sex where
  | male : Sex
  | female : Sex
deriving DecidableEq

/-- A patient profile: the ten input fields read by `calculate_smart2_risk`,
after every numeric conversion has succeeded. -/
structure PatientProfile where
  age : ℝ
  sex : Sex
  diabetes : Bool
  smoker : Bool
  egfr : ℝ
  ldl : ℝ
  sbp : ℝ
  cad : Bool
  stroke : Bool
  pad : Bool

/-- The source's five-digit decimal literal standing in for Euler's number
(line 45: `2.71828**…`). -/
noncomputable def eLit : ℝ := 2.71828

/-- `vasc_count = sum([cad, stroke, pad])` (line 27). -/
def vasc_count (p : PatientProfile) : ℕ :=
  (if p.cad then 1 else 0) + (if p.stroke then 1 else 0) + (if p.pad then 1 else 0)

/-- The coefficient dictionary of lines 30–41, as the list of its values in
source order. -/
noncomputable def coefficients (p : PatientProfile) : List ℝ :=
  [ -8.1937,
    0.0635 * (p.age - 60),
    if p.sex = Sex.female then -0.3372 else 0,
    if p.diabetes then 0.5034 else 0,
    if p.smoker then 0.7862 else 0,
    if p.egfr < 30 then 0.9235 else 0,
    if 30 ≤ p.egfr ∧ p.egfr < 60 then 0.5539 else 0,
    if 2 ≤ vasc_count p then 0.5434 else 0,
    0.2436 * (p.ldl - 2.5),
    0.0083 * (p.sbp - 120) ]

/-- `lp = sum(coefficients.values())` (line 44). -/
noncomputable def lp (p : PatientProfile) : ℝ := (coefficients p).sum

/-- `risk_percent = 100 * (1 - 2.71828**(-2.71828**lp * 10))` (line 45); `**`
binds tighter than unary minus, so the exponent is `(-(2.71828**lp)) * 10`.
Real-exponent powers on `ℝ` are `Real.rpow`. -/
noncomputable def risk_percent (p : PatientProfile) : ℝ :=
  100 * (1 - eLit ^ (-(eLit ^ lp p) * 10))

/-- Python's `round(x, 1)`, modelled as round-half-up to one decimal place. -/
noncomputable def round1 (x : ℝ) : ℝ := ((round (10 * x) : ℤ) : ℝ) / 10

/-- The returned value on the success path, line 46:
`max(1.0, min(99.0, round(risk_percent, 1)))`. -/
noncomputable def smart2_risk (p : PatientProfile) : ℝ :=
  max 1 (min 99 (round1 (risk_percent p)))

/-- The session state as `calculate_smart2_risk` reads it.  Each numeric field
holds the result of the `float()` conversion: `none` when the field is missing
or not numerically convertible. -/
structure SessionState where
  age : Option ℝ
  sex : Sex
  diabetes : Bool
  smoker : Bool
  egfr : Option ℝ
  ldl : Option ℝ
  sbp : Option ℝ
  cad : Bool
  stroke : Bool
  pad : Bool

/-- Lines 20–48: the whole body runs under `try`; a failing conversion (a
`none` numeric field) lands in the bare `except` and returns `None`. -/
noncomputable def calculate_smart2_risk (s : SessionState) : Option ℝ :=
  match s.age, s.egfr, s.ldl, s.sbp with
  | some a, some e, some l, some b =>
      some (smart2_risk ⟨a, s.sex, s.diabetes, s.smoker, e, l, b, s.cad, s.stroke, s.pad⟩)
  | _, _, _, _ => none

/-- Risk tiers shown by `main`. -/
inductive Tier where
  | moderate : Tier
  | high : Tier
  | veryHigh : Tier
deriving DecidableEq

/-- Tier classification of lines 101–106:
`if risk >= 30: … elif risk >= 20: … else: …`. -/
noncomputable def classify (r : ℝ) : Tier :=
  if 30 ≤ r then Tier.veryHigh else if 20 ≤ r then Tier.high else Tier.moderate

/-- Spec §3: `vascularTerritoryCount` = count of the three vascular-disease
flags that are true. -/
def vascularTerritoryCount (p : PatientProfile) : ℕ :=
  [p.cad, p.stroke, p.pad].count true

/-- Spec §4.1 step 3, following the spec's words: the probability transform
with the mathematically exact exponential, `1 − exp(−exp(lp) × 10)`. -/
noncomputable def riskFractionSpec (x : ℝ) : ℝ := 1 - Real.exp (-(Real.exp x) * 10)

/-- The source's count of vascular territories agrees with the spec's. -/
theorem vasc_count_eq (p : PatientProfile) : vasc_count p = vascularTerritoryCount p := by
  rcases p with ⟨a, sx, d, sm, e, l, b, c1, c2, c3⟩
  cases c1 <;> cases c2 <;> cases c3 <;> rfl

/-- **C1.** The linear predictor is the sum of exactly the ten stated terms,
the two eGFR terms are mutually exclusive, and both vanish when egfr ≥ 60. -/
theorem lp_ten_terms (p : PatientProfile) :
    lp p =
      -8.1937 + 0.0635 * (p.age - 60)
        + (if p.sex = Sex.female then -0.3372 else 0)
        + (if p.diabetes then 0.5034 else 0)
        + (if p.smoker then 0.7862 else 0)
        + (if p.egfr < 30 then 0.9235 else 0)
        + (if 30 ≤ p.egfr ∧ p.egfr < 60 then 0.5539 else 0)
        + (if 2 ≤ vascularTerritoryCount p then 0.5434 else 0)
        + 0.2436 * (p.ldl - 2.5)
        + 0.0083 * (p.sbp - 120)
      ∧ ¬(p.egfr < 30 ∧ (30 ≤ p.egfr ∧ p.egfr < 60))
      ∧ (60 ≤ p.egfr →
          (if p.egfr < 30 then (0.9235 : ℝ) else 0) = 0
            ∧ (if 30 ≤ p.egfr ∧ p.egfr < 60 then (0.5539 : ℝ) else 0) = 0) := by
  refine ⟨?_, ?_, ?_⟩
  · rw [lp, coefficients, ← vasc_count_eq]
    simp only [List.sum_cons, List.sum_nil]
    ring
  · rintro ⟨h1, h2, _⟩
    linarith
  · intro h
    constructor
    · rw [if_neg]
      intro h'
      linarith
    · rw [if_neg]
      rintro ⟨_, h'⟩
      linarith

/-- Witness for C1 at a concrete profile with egfr = 90. -/
theorem lp_ten_terms_witness :
    lp ⟨65, Sex.male, true, false, 90, 3.5, 140, true, true, false⟩ =
      -8.1937 + 0.0635 * (65 - 60)
        + (if (Sex.male : Sex) = Sex.female then -0.3372 else 0)
        + (if true then (0.5034 : ℝ) else 0)
        + (if false then (0.7862 : ℝ) else 0)
        + (if (90 : ℝ) < 30 then 0.9235 else 0)
        + (if (30 : ℝ) ≤ 90 ∧ (90 : ℝ) < 60 then 0.5539 else 0)
        + (if 2 ≤ vascularTerritoryCount ⟨65, Sex.male, true, false, 90, 3.5, 140, true, true, false⟩ then 0.5434 else 0)
        + 0.2436 * (3.5 - 2.5)
        + 0.0083 * (140 - 120)
      ∧ (if (90 : ℝ) < 30 then (0.9235 : ℝ) else 0) = 0
      ∧ (if (30 : ℝ) ≤ 90 ∧ (90 : ℝ) < 60 then (0.5539 : ℝ) else 0) = 0 := by
  have h := lp_ten_terms ⟨65, Sex.male, true, false, 90, 3.5, 140, true, true, false⟩
  exact ⟨h.1, (h.2.2 (by norm_num)).1, (h.2.2 (by norm_num)).2⟩

/-- Rounding to one decimal is monotone. -/
theorem round1_mono {x y : ℝ} (h : x ≤ y) : round1 x ≤ round1 y := by
  unfold round1
  have h1 : round (10 * x) ≤ round (10 * y) := by
    rw [round_eq, round_eq]
    exact Int.floor_mono (by linarith)
  have h2 : ((round (10 * x) : ℤ) : ℝ) ≤ ((round (10 * y) : ℤ) : ℝ) :=
    Int.cast_le.mpr h1
  linarith

theorem round1_one : round1 1 = 1 := by
  unfold round1
  rw [show (10 : ℝ) * 1 = ((10 : ℤ) : ℝ) by norm_num, round_intCast]
  norm_num

theorem round1_99 : round1 99 = 99 := by
  unfold round1
  rw [show (10 : ℝ) * 99 = ((990 : ℤ) : ℝ) by norm_num, round_intCast]
  norm_num

/-- Rounding after clamping to [1, 99] agrees with clamping after rounding:
the clamp bounds are exact one-decimal values and rounding is monotone. -/
theorem clamp_round_comm (x : ℝ) :
    max 1 (min 99 (round1 x)) = round1 (max 1 (min 99 x)) := by
  rcases le_total x 1 with hx | hx
  · have h1 : min (99 : ℝ) x = x := min_eq_right (by linarith)
    have h2 : round1 x ≤ 1 := by
      calc round1 x ≤ round1 1 := round1_mono hx
        _ = 1 := round1_one
    rw [h1, max_eq_left hx, round1_one,
      min_eq_right (by linarith : round1 x ≤ (99 : ℝ)), max_eq_left h2]
  · rcases le_total x 99 with h99 | h99
    · have hlo : (1 : ℝ) ≤ round1 x := by
        calc (1 : ℝ) = round1 1 := round1_one.symm
          _ ≤ round1 x := round1_mono hx
      have hhi : round1 x ≤ 99 := by
        calc round1 x ≤ round1 99 := round1_mono h99
          _ = 99 := round1_99
      rw [min_eq_right h99, max_eq_right hx, min_eq_right hhi, max_eq_right hlo]
    · have hhi : (99 : ℝ) ≤ round1 x := by
        calc (99 : ℝ) = round1 99 := round1_99.symm
          _ ≤ round1 x := round1_mono h99
      rw [min_eq_left h99, max_eq_right (by norm_num : (1 : ℝ) ≤ 99), round1_99,
        min_eq_left hhi, max_eq_right (by norm_num : (1 : ℝ) ≤ 99)]

/-- **C4.** The returned percentage equals clamp-to-[1,99]-then-round, the
order the spec prescribes (the source rounds first; the two orders agree). -/
theorem smart2_risk_clamp_then_round (p : PatientProfile) :
    smart2_risk p = round1 (max 1 (min 99 (risk_percent p))) :=
  clamp_round_comm (risk_percent p)

/-- The returned value always lies in [1, 99] and is an integer number of
tenths. -/
theorem smart2_risk_bounds (p : PatientProfile) :
    1 ≤ smart2_risk p ∧ smart2_risk p ≤ 99 ∧
      ∃ k : ℤ, smart2_risk p = (k : ℝ) / 10 := by
  refine ⟨le_max_left _ _, max_le (by norm_num) (min_le_left _ _), ?_⟩
  refine ⟨max 10 (min 990 (round (10 * risk_percent p))), ?_⟩
  have h1 : ((min 990 (round (10 * risk_percent p)) : ℤ) : ℝ) / 10 =
      min 99 (round1 (risk_percent p)) := by
    rw [Int.cast_min]
    rw [← min_div_div_right (by norm_num : (0 : ℝ) ≤ 10)]
    norm_num [round1]
  have h2 : ((max 10 (min 990 (round (10 * risk_percent p))) : ℤ) : ℝ) / 10 =
      max 1 (min 99 (round1 (risk_percent p))) := by
    rw [Int.cast_max]
    rw [← max_div_div_right (by norm_num : (0 : ℝ) ≤ 10), h1]
    norm_num
  rw [h2]
  rfl

/-- **C3.** On a well-formed session state the computation returns a defined
result, lying in [1, 99] with at most one decimal place. -/
theorem calculate_defined_in_range (s : SessionState)
    (h1 : s.age.isSome) (h2 : s.egfr.isSome) (h3 : s.ldl.isSome)
    (h4 : s.sbp.isSome) :
    ∃ r, calculate_smart2_risk s = some r ∧ 1 ≤ r ∧ r ≤ 99 ∧
      ∃ k : ℤ, r = (k : ℝ) / 10 := by
  rcases s with ⟨a, sx, d, sm, e, l, b, c1, c2, c3⟩
  rcases a with _ | a; · exact absurd h1 (by simp)
  rcases e with _ | e; · exact absurd h2 (by simp)
  rcases l with _ | l; · exact absurd h3 (by simp)
  rcases b with _ | b; · exact absurd h4 (by simp)
  exact ⟨_, rfl, smart2_risk_bounds _⟩

/-- Witness for C3 at the default session state (all fields present). -/
theorem calculate_defined_in_range_witness :
    ∃ r, calculate_smart2_risk
        ⟨some 65, Sex.male, false, false, some 90, some 3.5, some 140,
          false, false, false⟩ = some r ∧
      1 ≤ r ∧ r ≤ 99 ∧ ∃ k : ℤ, r = (k : ℝ) / 10 :=
  calculate_defined_in_range _ rfl rfl rfl rfl

/-- **C5.** Tier classification is exhaustive and gap-free on the stated
boundaries: ≥ 30 is very high, [20, 30) is high, < 20 is moderate. -/
theorem classify_tiers (r : ℝ) :
    (30 ≤ r → classify r = Tier.veryHigh) ∧
      (20 ≤ r → r < 30 → classify r = Tier.high) ∧
      (r < 20 → classify r = Tier.moderate) := by
  refine ⟨?_, ?_, ?_⟩
  · intro h
    rw [classify, if_pos h]
  · intro h20 h30
    rw [classify, if_neg (by linarith), if_pos h20]
  · intro h
    rw [classify, if_neg (by linarith), if_neg (by linarith)]

/-- Witness for C5 at the three representative percentages 35, 25 and 10. -/
theorem classify_tiers_witness :
    classify 35 = Tier.veryHigh ∧ classify 25 = Tier.high ∧
      classify 10 = Tier.moderate :=
  ⟨(classify_tiers 35).1 (by norm_num),
    (classify_tiers 25).2.1 (by norm_num) (by norm_num),
    (classify_tiers 10).2.2 (by norm_num)⟩

/-- **C6.** The computation returns `None` exactly when some numeric field is
missing or unconvertible, and on well-formed input it returns a value; the
embedding is total, so no other outcome exists. -/
theorem calculate_none_iff (s : SessionState) :
    (calculate_smart2_risk s = none ↔
        s.age = none ∨ s.egfr = none ∨ s.ldl = none ∨ s.sbp = none) ∧
      (s.age ≠ none → s.egfr ≠ none → s.ldl ≠ none → s.sbp ≠ none →
        ∃ r, calculate_smart2_risk s = some r) := by
  rcases s with ⟨a, sx, d, sm, e, l, b, c1, c2, c3⟩
  cases a <;> cases e <;> cases l <;> cases b <;>
    simp [calculate_smart2_risk]

/-- Witness for C6: a state missing its age yields `None`; the default
complete state yields a value. -/
theorem calculate_none_iff_witness :
    calculate_smart2_risk
        ⟨none, Sex.male, false, false, some 90, some 3.5, some 140,
          false, false, false⟩ = none ∧
      ∃ r, calculate_smart2_risk
          ⟨some 65, Sex.male, false, false, some 90, some 3.5, some 140,
            false, false, false⟩ = some r :=
  ⟨(calculate_none_iff _).1.mpr (Or.inl rfl),
    (calculate_none_iff _).2 (by simp) (by simp) (by simp) (by simp)⟩

/-- **C10.** Every run of the computation ends in exactly one of two ways:
the `None` sentinel of the blanket error handler, or a numeric result, which
then lies in [1, 99].  No exception escapes the `try`. -/
theorem calculate_total (s : SessionState) :
    calculate_smart2_risk s = none ∨
      ∃ r, calculate_smart2_risk s = some r ∧ 1 ≤ r ∧ r ≤ 99 := by
  rcases s with ⟨a, sx, d, sm, e, l, b, c1, c2, c3⟩
  rcases a with _ | a
  · exact Or.inl rfl
  rcases e with _ | e
  · exact Or.inl rfl
  rcases l with _ | l
  · exact Or.inl rfl
  rcases b with _ | b
  · exact Or.inl rfl
  exact Or.inr ⟨_, rfl, (smart2_risk_bounds _).1, (smart2_risk_bounds _).2.1⟩

/-- `vasc_count` depends only on the three vascular flags. -/
theorem vasc_count_mk (a : ℝ) (sx : Sex) (d sm : Bool) (e l b : ℝ)
    (c1 c2 c3 : Bool) :
    vasc_count ⟨a, sx, d, sm, e, l, b, c1, c2, c3⟩ =
      (if c1 then 1 else 0) + (if c2 then 1 else 0) + (if c3 then 1 else 0) := rfl

/-- The double-exponential transform of line 45 is monotone in the linear
predictor: the base 2.71828 exceeds 1, so each power is monotone in its
exponent and the two sign flips cancel. -/
theorem transform_mono {u v : ℝ} (h : u ≤ v) :
    100 * (1 - eLit ^ (-(eLit ^ u) * 10)) ≤ 100 * (1 - eLit ^ (-(eLit ^ v) * 10)) := by
  have hc1 : (1 : ℝ) ≤ eLit := by norm_num [eLit]
  have h1 : eLit ^ u ≤ eLit ^ v := Real.rpow_le_rpow_of_exponent_le hc1 h
  have h3 : eLit ^ (-(eLit ^ v) * 10) ≤ eLit ^ (-(eLit ^ u) * 10) :=
    Real.rpow_le_rpow_of_exponent_le hc1 (by linarith)
  linarith

/-- A larger linear predictor never yields a smaller returned percentage. -/
theorem smart2_risk_mono_of_lp {p q : PatientProfile} (h : lp p ≤ lp q) :
    smart2_risk p ≤ smart2_risk q := by
  unfold smart2_risk
  have h1 : round1 (risk_percent p) ≤ round1 (risk_percent q) := by
    apply round1_mono
    unfold risk_percent
    exact transform_mono h
  exact max_le_max (le_refl 1) (min_le_min (le_refl 99) h1)

/-- **C7.** Monotonicity in each risk factor, all other fields fixed:
raising age, LDL or systolic BP, enabling diabetes, smoking or any vascular
flag, or lowering eGFR never decreases the returned percentage. -/
theorem smart2_risk_monotone (sx : Sex) (d sm c1 c2 c3 : Bool) (a e l b : ℝ) :
    (∀ a', a ≤ a' →
      smart2_risk ⟨a, sx, d, sm, e, l, b, c1, c2, c3⟩ ≤
        smart2_risk ⟨a', sx, d, sm, e, l, b, c1, c2, c3⟩) ∧
    (∀ l', l ≤ l' →
      smart2_risk ⟨a, sx, d, sm, e, l, b, c1, c2, c3⟩ ≤
        smart2_risk ⟨a, sx, d, sm, e, l', b, c1, c2, c3⟩) ∧
    (∀ b', b ≤ b' →
      smart2_risk ⟨a, sx, d, sm, e, l, b, c1, c2, c3⟩ ≤
        smart2_risk ⟨a, sx, d, sm, e, l, b', c1, c2, c3⟩) ∧
    (smart2_risk ⟨a, sx, false, sm, e, l, b, c1, c2, c3⟩ ≤
      smart2_risk ⟨a, sx, true, sm, e, l, b, c1, c2, c3⟩) ∧
    (smart2_risk ⟨a, sx, d, false, e, l, b, c1, c2, c3⟩ ≤
      smart2_risk ⟨a, sx, d, true, e, l, b, c1, c2, c3⟩) ∧
    (smart2_risk ⟨a, sx, d, sm, e, l, b, false, c2, c3⟩ ≤
      smart2_risk ⟨a, sx, d, sm, e, l, b, true, c2, c3⟩) ∧
    (smart2_risk ⟨a, sx, d, sm, e, l, b, c1, false, c3⟩ ≤
      smart2_risk ⟨a, sx, d, sm, e, l, b, c1, true, c3⟩) ∧
    (smart2_risk ⟨a, sx, d, sm, e, l, b, c1, c2, false⟩ ≤
      smart2_risk ⟨a, sx, d, sm, e, l, b, c1, c2, true⟩) ∧
    (∀ e', e' ≤ e →
      smart2_risk ⟨a, sx, d, sm, e, l, b, c1, c2, c3⟩ ≤
        smart2_risk ⟨a, sx, d, sm, e', l, b, c1, c2, c3⟩) := by
  refine ⟨?_, ?_, ?_, ?_, ?_, ?_, ?_, ?_, ?_⟩
  · intro a' ha
    apply smart2_risk_mono_of_lp
    simp only [lp, coefficients, vasc_count_mk, List.sum_cons, List.sum_nil]
    linarith
  · intro l' hl
    apply smart2_risk_mono_of_lp
    simp only [lp, coefficients, vasc_count_mk, List.sum_cons, List.sum_nil]
    linarith
  · intro b' hb
    apply smart2_risk_mono_of_lp
    simp only [lp, coefficients, vasc_count_mk, List.sum_cons, List.sum_nil]
    linarith
  · apply smart2_risk_mono_of_lp
    simp [lp, coefficients, vasc_count_mk]
    linarith
  · apply smart2_risk_mono_of_lp
    simp [lp, coefficients, vasc_count_mk]
    linarith
  · apply smart2_risk_mono_of_lp
    cases c2 <;> cases c3 <;> simp [lp, coefficients, vasc_count] <;> linarith
  · apply smart2_risk_mono_of_lp
    cases c1 <;> cases c3 <;> simp [lp, coefficients, vasc_count] <;> linarith
  · apply smart2_risk_mono_of_lp
    cases c1 <;> cases c2 <;> simp [lp, coefficients, vasc_count] <;> linarith
  · intro e' he
    apply smart2_risk_mono_of_lp
    simp only [lp, coefficients, vasc_count_mk, List.sum_cons, List.sum_nil]
    have hterm :
        (if e < 30 then (0.9235 : ℝ) else 0) +
            (if 30 ≤ e ∧ e < 60 then (0.5539 : ℝ) else 0) ≤
          (if e' < 30 then (0.9235 : ℝ) else 0) +
            (if 30 ≤ e' ∧ e' < 60 then (0.5539 : ℝ) else 0) := by
      split_ifs with h1 h2 h3 h4 h5 h6 h7 <;> try linarith
      all_goals
        first
        | linarith
        | (exfalso; push_neg at *; first | linarith | simp_all; linarith)
    linarith

/-- Witness for C7: raising age from 60 to 70 on the baseline profile does
not decrease the returned percentage. -/
theorem smart2_risk_monotone_witness :
    smart2_risk ⟨60, Sex.male, false, false, 90, 2.5, 120, false, false, false⟩ ≤
      smart2_risk ⟨70, Sex.male, false, false, 90, 2.5, 120, false, false, false⟩ :=
  (smart2_risk_monotone Sex.male false false false false false 60 90 2.5 120).1
    70 (by norm_num)


theorem eLit_pos : (0 : ℝ) < eLit := by norm_num [eLit]

theorem eLit_lt_exp_one : eLit < Real.exp 1 :=
  lt_trans (by norm_num [eLit]) Real.exp_one_gt_d9

theorem log_eLit_le_one : Real.log eLit ≤ 1 :=
  (Real.log_le_iff_le_exp eLit_pos).mpr eLit_lt_exp_one.le

theorem exp_small_le {x : ℝ} (_h0 : 0 ≤ x) (h1 : x < 1) :
    Real.exp x ≤ (1 - x)⁻¹ := by
  have hpos : (0 : ℝ) < 1 - x := by linarith
  have he : 1 - x ≤ Real.exp (-x) := by
    have := Real.add_one_le_exp (-x)
    linarith
  have h2 : Real.exp x = (Real.exp (-x))⁻¹ := by
    rw [← Real.exp_neg, neg_neg]
  rw [h2]
  exact inv_anti₀ hpos he

theorem one_sub_le_log_eLit : 1 - 0.000001 ≤ Real.log eLit := by
  rw [Real.le_log_iff_exp_le eLit_pos]
  have h1 : Real.exp (1 - 0.000001) = Real.exp 1 * Real.exp (-0.000001) := by
    rw [← Real.exp_add]
    norm_num
  have h2 : Real.exp (-0.000001) ≤ (1 + 0.000001)⁻¹ := by
    have ha : (1 : ℝ) + 0.000001 ≤ Real.exp 0.000001 := by
      have := Real.add_one_le_exp (0.000001 : ℝ)
      linarith
    have h3 : Real.exp (-0.000001) = (Real.exp 0.000001)⁻¹ := Real.exp_neg _
    rw [h3]
    exact inv_anti₀ (by norm_num) ha
  rw [h1]
  calc Real.exp 1 * Real.exp (-0.000001)
      ≤ 2.7182818286 * (1 + 0.000001)⁻¹ :=
        mul_le_mul Real.exp_one_lt_d9.le h2 (Real.exp_pos _).le (by norm_num)
    _ ≤ eLit := by norm_num [eLit]

/-- Sandwich for `eLit ^ t` with `t ∈ [-2, 0]`. -/
theorem rpow_eLit_sandwich {t : ℝ} (h2 : -2 ≤ t) (h0 : t ≤ 0) :
    Real.exp t ≤ eLit ^ t ∧ eLit ^ t ≤ Real.exp t * 1.000003 := by
  rw [Real.rpow_def_of_pos eLit_pos]
  constructor
  · apply Real.exp_le_exp.mpr
    nlinarith [log_eLit_le_one]
  · have harg : Real.log eLit * t ≤ t + 0.000002 := by
      nlinarith [one_sub_le_log_eLit]
    calc Real.exp (Real.log eLit * t) ≤ Real.exp (t + 0.000002) :=
          Real.exp_le_exp.mpr harg
      _ = Real.exp t * Real.exp 0.000002 := Real.exp_add _ _
      _ ≤ Real.exp t * 1.000003 := by
          have := exp_small_le (show (0:ℝ) ≤ 0.000002 by norm_num)
            (show (0.000002:ℝ) < 1 by norm_num)
          have hb : Real.exp 0.000002 ≤ 1.000003 := by
            calc Real.exp 0.000002 ≤ ((1:ℝ) - 0.000002)⁻¹ := this
              _ ≤ 1.000003 := by norm_num
          exact mul_le_mul_of_nonneg_left hb (Real.exp_pos _).le

-- C8 crude bound: eLit^(-8.1937) ≤ 0.001
theorem pow_eLit_small : eLit ^ (-8.1937 : ℝ) ≤ 0.001 := by
  have h1 : eLit ^ (-8.1937 : ℝ) ≤ eLit ^ (-(8:ℝ)) :=
    Real.rpow_le_rpow_of_exponent_le (by norm_num [eLit]) (by norm_num)
  have h2 : eLit ^ (-(8:ℝ)) = (eLit ^ (8:ℕ))⁻¹ := by
    rw [Real.rpow_neg eLit_pos.le]
    congr 1
    rw [← Real.rpow_natCast eLit 8]
    norm_num
  have h3 : (1000 : ℝ) ≤ eLit ^ (8:ℕ) := by
    norm_num [eLit]
  have h4 : (eLit ^ (8:ℕ))⁻¹ ≤ 0.001 := by
    rw [inv_le_comm₀ (by positivity) (by norm_num)]
    linarith
  linarith [h1, h2 ▸ h1]

theorem exp_taylor_neg_7987 :
    (0.4499134 : ℝ) ≤ Real.exp (-0.7987) ∧ Real.exp (-0.7987) ≤ 0.4499135 := by
  have h := Real.exp_bound (show |(-0.7987 : ℝ)| ≤ 1 by rw [abs_of_nonpos] <;> norm_num)
    (show 0 < 10 by norm_num)
  rw [abs_le] at h
  rw [show |(-0.7987 : ℝ)| = 0.7987 by rw [abs_of_nonpos] <;> norm_num] at h
  simp only [Finset.sum_range_succ, Finset.sum_range_zero, Nat.succ_eq_add_one] at h
  norm_num [Nat.factorial] at h
  constructor <;> linarith

theorem exp_taylor_neg_655145 : (0.5193667 : ℝ) ≤ Real.exp (-0.655145) := by
  have h := Real.exp_bound (show |(-0.655145 : ℝ)| ≤ 1 by rw [abs_of_nonpos] <;> norm_num)
    (show 0 < 10 by norm_num)
  rw [abs_le] at h
  rw [show |(-0.655145 : ℝ)| = 0.655145 by rw [abs_of_nonpos] <;> norm_num] at h
  simp only [Finset.sum_range_succ, Finset.sum_range_zero, Nat.succ_eq_add_one] at h
  norm_num [Nat.factorial] at h
  linarith

theorem exp_taylor_neg_655138 : Real.exp (-0.655138) ≤ 0.5193712 := by
  have h := Real.exp_bound (show |(-0.655138 : ℝ)| ≤ 1 by rw [abs_of_nonpos] <;> norm_num)
    (show 0 < 10 by norm_num)
  rw [abs_le] at h
  rw [show |(-0.655138 : ℝ)| = 0.655138 by rw [abs_of_nonpos] <;> norm_num] at h
  simp only [Finset.sum_range_succ, Finset.sum_range_zero, Nat.succ_eq_add_one] at h
  norm_num [Nat.factorial] at h
  linarith

theorem exp_neg_17987_bounds :
    (0.1655138 : ℝ) ≤ Real.exp (-1.7987) ∧ Real.exp (-1.7987) ≤ 0.1655140 := by
  have hsplit : Real.exp (-1.7987) = Real.exp (-1) * Real.exp (-0.7987) := by
    rw [← Real.exp_add]; norm_num
  have h1 := Real.exp_neg_one_gt_d9
  have h2 := Real.exp_neg_one_lt_d9
  have h3 : (0.4499134 : ℝ) ≤ Real.exp (-0.7987) := exp_taylor_neg_7987.1
  have h4 : Real.exp (-0.7987) ≤ 0.4499135 := exp_taylor_neg_7987.2
  have hp1 : (0 : ℝ) < Real.exp (-1) := Real.exp_pos _
  have hp2 : (0 : ℝ) < Real.exp (-0.7987) := Real.exp_pos _
  constructor
  · rw [hsplit]; nlinarith
  · rw [hsplit]; nlinarith

theorem raw_max_bounds :
    (80.89 : ℝ) ≤ 100 * (1 - eLit ^ (-(eLit ^ (-1.7987 : ℝ)) * 10)) ∧
      100 * (1 - eLit ^ (-(eLit ^ (-1.7987 : ℝ)) * 10)) ≤ 80.894 := by
  have hs1 := rpow_eLit_sandwich (show (-2:ℝ) ≤ -1.7987 by norm_num)
    (show (-1.7987:ℝ) ≤ 0 by norm_num)
  have hC_lo : (0.1655138 : ℝ) ≤ eLit ^ (-1.7987 : ℝ) :=
    le_trans exp_neg_17987_bounds.1 hs1.1
  have hC_hi : eLit ^ (-1.7987 : ℝ) ≤ 0.1655145 := by
    calc eLit ^ (-1.7987 : ℝ) ≤ Real.exp (-1.7987) * 1.000003 := hs1.2
      _ ≤ 0.1655140 * 1.000003 := by nlinarith [exp_neg_17987_bounds.2]
      _ ≤ 0.1655145 := by norm_num
  have hy_lo : (-1.655145 : ℝ) ≤ -(eLit ^ (-1.7987 : ℝ)) * 10 := by linarith
  have hy_hi : -(eLit ^ (-1.7987 : ℝ)) * 10 ≤ -1.655138 := by linarith
  have hs2 := rpow_eLit_sandwich (le_trans (by norm_num) hy_lo)
    (le_trans hy_hi (by norm_num))
  have hE_lo : (0.191064 : ℝ) ≤ Real.exp (-(eLit ^ (-1.7987 : ℝ)) * 10) := by
    have hstep : Real.exp (-1.655145) ≤ Real.exp (-(eLit ^ (-1.7987 : ℝ)) * 10) :=
      Real.exp_le_exp.mpr hy_lo
    have hsplit : Real.exp (-1.655145) = Real.exp (-1) * Real.exp (-0.655145) := by
      rw [← Real.exp_add]; norm_num
    have h1 := Real.exp_neg_one_gt_d9
    have h2 := exp_taylor_neg_655145
    have hp : (0 : ℝ) < Real.exp (-0.655145) := Real.exp_pos _
    nlinarith [hstep, hsplit]
  have hE_hi : Real.exp (-(eLit ^ (-1.7987 : ℝ)) * 10) ≤ 0.1910660 := by
    have hstep : Real.exp (-(eLit ^ (-1.7987 : ℝ)) * 10) ≤ Real.exp (-1.655138) :=
      Real.exp_le_exp.mpr hy_hi
    have hsplit : Real.exp (-1.655138) = Real.exp (-1) * Real.exp (-0.655138) := by
      rw [← Real.exp_add]; norm_num
    have h2 := Real.exp_neg_one_lt_d9
    have h3 := exp_taylor_neg_655138
    have hp : (0 : ℝ) < Real.exp (-0.655138) := Real.exp_pos _
    have hp2 : (0 : ℝ) < Real.exp (-1) := Real.exp_pos _
    nlinarith [hstep, hsplit]
  have hF_lo : (0.191064 : ℝ) ≤ eLit ^ (-(eLit ^ (-1.7987 : ℝ)) * 10) :=
    le_trans hE_lo hs2.1
  have hF_hi : eLit ^ (-(eLit ^ (-1.7987 : ℝ)) * 10) ≤ 0.1910666 := by
    calc eLit ^ (-(eLit ^ (-1.7987 : ℝ)) * 10)
        ≤ Real.exp (-(eLit ^ (-1.7987 : ℝ)) * 10) * 1.000003 := hs2.2
      _ ≤ 0.1910660 * 1.000003 := by nlinarith
      _ ≤ 0.1910666 := by norm_num
  constructor <;> [nlinarith; nlinarith]

theorem raw_A_le_one :
    100 * (1 - eLit ^ (-(eLit ^ (-8.1937 : ℝ)) * 10)) ≤ 1 := by
  have hApos : (0 : ℝ) < eLit ^ (-8.1937 : ℝ) := Real.rpow_pos_of_pos eLit_pos _
  have hAle : eLit ^ (-8.1937 : ℝ) ≤ 0.001 := pow_eLit_small
  have hy1 : (-2 : ℝ) ≤ -(eLit ^ (-8.1937 : ℝ)) * 10 := by nlinarith
  have hy2 : -(eLit ^ (-8.1937 : ℝ)) * 10 ≤ 0 := by nlinarith
  have hlow := (rpow_eLit_sandwich hy1 hy2).1
  have hexp := Real.add_one_le_exp (-(eLit ^ (-8.1937 : ℝ)) * 10)
  nlinarith

theorem eLit_rpow_neg_ten_gt : Real.exp (-10) < eLit ^ (-10 : ℝ) := by
  have h2 : eLit ^ (-(10:ℝ)) = (eLit ^ (10:ℕ))⁻¹ := by
    rw [Real.rpow_neg eLit_pos.le]
    congr 1
    rw [← Real.rpow_natCast eLit 10]
    norm_num
  have h3 : eLit ^ (10:ℕ) < Real.exp 10 := by
    have hp : eLit ^ (10:ℕ) < Real.exp 1 ^ (10:ℕ) :=
      pow_lt_pow_left₀ eLit_lt_exp_one eLit_pos.le (by norm_num)
    have he : Real.exp 10 = Real.exp 1 ^ (10:ℕ) := by
      rw [← Real.exp_nat_mul]
      norm_num
    rw [he]
    exact hp
  have h4 : Real.exp (-10) = (Real.exp 10)⁻¹ := Real.exp_neg _
  have h5 : (Real.exp 10)⁻¹ < (eLit ^ (10:ℕ))⁻¹ :=
    inv_strictAnti₀ (pow_pos eLit_pos 10) h3
  rw [h4, show (-10 : ℝ) = -(10:ℝ) by norm_num, h2]
  exact h5

theorem transform_ne_at_zero :
    100 * (1 - eLit ^ (-(eLit ^ (0:ℝ)) * 10)) ≠
      100 * (1 - Real.exp (-(Real.exp 0) * 10)) := by
  rw [Real.rpow_zero, Real.exp_zero]
  have h1 : -(1:ℝ) * 10 = -10 := by norm_num
  rw [h1]
  have := eLit_rpow_neg_ten_gt
  intro heq
  have : eLit ^ (-10 : ℝ) = Real.exp (-10) := by linarith
  linarith [eLit_rpow_neg_ten_gt]

theorem rpow_as_exp (u : ℝ) :
    100 * (1 - eLit ^ (-(eLit ^ u) * 10)) =
      100 * (1 - Real.exp (-(Real.exp (u * Real.log eLit)) * 10 * Real.log eLit)) := by
  rw [Real.rpow_def_of_pos eLit_pos u, Real.rpow_def_of_pos eLit_pos]
  congr 3
  ring_nf


/-- The two sexes are distinct values. -/
theorem sex_male_ne_female : Sex.male ≠ Sex.female := by
  intro h
  cases h

/-- **C8.** Scenario A: the 60-year-old male baseline profile has lp exactly
−8.1937, the percentage clamps up to 1.0, and the tier is moderate. -/
theorem scenario_A :
    lp ⟨60, Sex.male, false, false, 90, 2.5, 120, false, false, false⟩ = -8.1937 ∧
      smart2_risk ⟨60, Sex.male, false, false, 90, 2.5, 120, false, false, false⟩ = 1 ∧
      classify (smart2_risk ⟨60, Sex.male, false, false, 90, 2.5, 120, false, false, false⟩) =
        Tier.moderate := by
  have hlp : lp ⟨60, Sex.male, false, false, 90, 2.5, 120, false, false, false⟩ = -8.1937 := by
    norm_num [lp, coefficients, vasc_count_mk, sex_male_ne_female]
  have hraw : risk_percent ⟨60, Sex.male, false, false, 90, 2.5, 120, false, false, false⟩ ≤ 1 := by
    rw [risk_percent, hlp]
    exact raw_A_le_one
  have hr1 : round1 (risk_percent ⟨60, Sex.male, false, false, 90, 2.5, 120, false, false, false⟩) ≤ 1 := by
    have h := round1_mono hraw
    rwa [round1_one] at h
  have hrisk : smart2_risk ⟨60, Sex.male, false, false, 90, 2.5, 120, false, false, false⟩ = 1 := by
    rw [smart2_risk, min_eq_right (le_trans hr1 (by norm_num)), max_eq_left hr1]
  refine ⟨hlp, hrisk, ?_⟩
  rw [hrisk, classify, if_neg (by norm_num), if_neg (by norm_num)]

/-- At the all-maximal profile the returned percentage is exactly 80.9. -/
theorem smart2_risk_max_eq :
    smart2_risk ⟨90, Sex.male, true, true, 120, 10, 220, true, true, true⟩ = 80.9 := by
  have hlp : lp ⟨90, Sex.male, true, true, 120, 10, 220, true, true, true⟩ = -1.7987 := by
    norm_num [lp, coefficients, vasc_count_mk, sex_male_ne_female]
  have hraw : (80.89 : ℝ) ≤ risk_percent ⟨90, Sex.male, true, true, 120, 10, 220, true, true, true⟩ ∧
      risk_percent ⟨90, Sex.male, true, true, 120, 10, 220, true, true, true⟩ ≤ 80.894 := by
    rw [risk_percent, hlp]
    exact raw_max_bounds
  have hround : round (10 * risk_percent ⟨90, Sex.male, true, true, 120, 10, 220, true, true, true⟩) =
      (809 : ℤ) := by
    rw [round_eq]
    refine Int.floor_eq_iff.mpr ⟨?_, ?_⟩
    · push_cast
      linarith [hraw.1]
    · push_cast
      linarith [hraw.2]
  have hr1 : round1 (risk_percent ⟨90, Sex.male, true, true, 120, 10, 220, true, true, true⟩) =
      80.9 := by
    rw [round1, hround]
    norm_num
  rw [smart2_risk, hr1]
  norm_num

/-- Counterexample to C9: at the maximal profile the result is not 99.0. -/
theorem scenario_max_not_99 :
    smart2_risk ⟨90, Sex.male, true, true, 120, 10, 220, true, true, true⟩ ≠ 99 := by
  rw [smart2_risk_max_eq]
  norm_num

/-- **C9 (amended).** At the maximal clinical profile the raw risk never
reaches the upper clamp: the result is exactly 80.9, and the tier is
veryHigh. -/
theorem scenario_max_amended :
    smart2_risk ⟨90, Sex.male, true, true, 120, 10, 220, true, true, true⟩ = 80.9 ∧
      classify (smart2_risk ⟨90, Sex.male, true, true, 120, 10, 220, true, true, true⟩) =
        Tier.veryHigh := by
  refine ⟨smart2_risk_max_eq, ?_⟩
  rw [smart2_risk_max_eq, classify, if_pos (by norm_num : (30 : ℝ) ≤ 80.9)]

/-- Counterexample to C2: at a well-formed profile with lp = 0 the source's
transform (base 2.71828) differs from the spec's exact-exponential
transform. -/
theorem transform_not_exact_exp :
    risk_percent ⟨60 + 81937 / 635, Sex.male, false, false, 90, 2.5, 120, false, false, false⟩ ≠
      100 * riskFractionSpec
        (lp ⟨60 + 81937 / 635, Sex.male, false, false, 90, 2.5, 120, false, false, false⟩) := by
  have hlp : lp ⟨60 + 81937 / 635, Sex.male, false, false, 90, 2.5, 120, false, false, false⟩ = 0 := by
    norm_num [lp, coefficients, vasc_count_mk, sex_male_ne_female]
  rw [riskFractionSpec, risk_percent, hlp]
  exact transform_ne_at_zero

/-- **C2 (amended).** The transform uses the literal base 2.71828 for both
exponentiations; written with the exact exponential it equals
`100·(1 − exp(−exp(lp·ln 2.71828)·10·ln 2.71828))`. -/
theorem risk_percent_exact_form (p : PatientProfile) :
    risk_percent p =
      100 * (1 - Real.exp (-(Real.exp (lp p * Real.log eLit)) * 10 * Real.log eLit)) := by
  rw [risk_percent]
  exact rpow_as_exp (lp p)

end HOPE5
